import Mathlib

/-!
Shallow embedding of `nimbix-admin/ssh.py`: a script that resolves a running
compute job's network address by image name via two HTTP GET calls against the
JARVICE API (`/jobs` then `/connect`), a linear scan over the parsed job
listing, and a final `print` of the `address` field.

The two HTTP responses are modelled by an environment `Env` carrying, for each
of the two requests, the HTTP status code and the result of
`json.loads` on the decoded body (as an optional `Json` value, absent meaning the
body is not valid JSON so `json.loads` raises a `ValueError`).  A run of the
script produces a `RunResult`: the lines written to stdout and stderr, the
process exit code, the list of HTTP requests issued, and the uncaught Python
exception (if any) that terminated the process.
-/

set_option autoImplicit false

namespace Nimbix

/-- A JSON value, as produced by Python's `json.loads`.  An `obj` models a
Python `dict` (insertion-ordered, keys distinct after parsing); JSON numbers
are modelled as integers, which covers every value the claims touch. -/
inductive Json where
  | null
  | bool (b : Bool)
  | num (n : Int)
  | str (s : String)
  | arr (elems : List Json)
  | obj (fields : List (String × Json))

/-- The Python exceptions this script can raise uncaught. -/
inductive PyErr where
  | keyError (key : String)
  | typeError
  | attributeError
  | valueError
  | assertionError
  | indexError
deriving DecidableEq

/-- Message line a Python traceback ends with, per exception. -/
def pyErrMsg : PyErr → String
  | .keyError k => "KeyError: " ++ k
  | .typeError => "TypeError: value is not subscriptable"
  | .attributeError => "AttributeError: object has no attribute items"
  | .valueError => "json.decoder.JSONDecodeError"
  | .assertionError => "AssertionError"
  | .indexError => "IndexError: list index out of range"

/-- Python subscript `j[key]` with a string key: returns the value when `j` is
a dict containing `key`, raises `KeyError` when the key is absent, and raises
`TypeError` when `j` is not a dict. -/
def getItem (j : Json) (key : String) : Except PyErr Json :=
  match j with
  | .obj fields =>
    match fields.lookup key with
    | some v => .ok v
    | none => .error (.keyError key)
  | _ => .error .typeError

/-- Python res.items(): succeeds exactly on a dict, yielding its entries in
iteration order; on any other value Python raises `AttributeError`. -/
def Json.items : Json → Option (List (String × Json))
  | .obj fields => some fields
  | _ => none

/-- Python `v == image` where `image` is a `str`: true exactly when `v` is the
same string; comparing a non-string JSON value to a string is `False`. -/
def jsonEqStr (v : Json) (s : String) : Bool :=
  match v with
  | .str t => t == s
  | _ => false

/-- The nested lookup info[job_api_submission][nae][name] performed on each job
entry, propagating the first Python exception raised. -/
def getName (info : Json) : Except PyErr Json :=
  match getItem info "job_api_submission" with
  | .error e => .error e
  | .ok sub =>
    match getItem sub "nae" with
    | .error e => .error e
    | .ok nae => getItem nae "name"

/-- The search loop of lines 37-42: iterate `res.items()` in order; on the
first entry whose `job_api_submission.nae.name` equals `image`, return its job
number and `break`; a Python exception while inspecting an entry aborts the
loop; if no entry matches, the loop falls through (`target_jobnumber` stays
`None`). -/
def findJob (image : String) : List (String × Json) → Except PyErr (Option String)
  | [] => .ok none
  | (jobnumber, info) :: rest =>
    match getName info with
    | .error e => .error e
    | .ok v => if jsonEqStr v image then .ok (some jobnumber) else findJob image rest

/-- Holds when inspecting this entry raises no Python exception, i.e. the
nested `job_api_submission.nae.name` lookup succeeds. -/
def entryOk (p : String × Json) : Bool :=
  match getName p.2 with
  | .ok _ => true
  | .error _ => false

/-- Holds when the entry has job_api_submission.nae.name resolving to exactly
the string `image`. -/
def entryMatches (image : String) (p : String × Json) : Bool :=
  match getName p.2 with
  | .ok v => jsonEqStr v image
  | .error _ => false

/-- Holds when the value is a dict having an `address` key. -/
def hasAddress : Json → Bool
  | .obj fields => fields.any (fun p => p.1 == "address")
  | _ => false

/-- Python `str(v)`, as passed to `print`: a string prints verbatim, other
values print their `repr`-style rendering. -/
def pyRepr : Json → String
  | .null => "None"
  | .bool true => "True"
  | .bool false => "False"
  | .num n => toString n
  | .str s => "\x27" ++ s ++ "\x27"
  | .arr elems =>
    "[" ++ String.intercalate ", " (elems.attach.map (fun x => pyRepr x.1)) ++ "]"
  | .obj fields =>
    "\x7b" ++
      String.intercalate ", "
        (fields.attach.map (fun x => "\x27" ++ x.1.1 ++ "\x27: " ++ pyRepr x.1.2)) ++
      "\x7d"
decreasing_by
  · have h := List.sizeOf_lt_of_mem x.2
    simp only [Json.arr.sizeOf_spec]
    omega
  · obtain ⟨⟨k, v⟩, hm⟩ := x
    have h := List.sizeOf_lt_of_mem hm
    simp only [Prod.mk.sizeOf_spec] at h
    simp only [Json.obj.sizeOf_spec]
    omega

/-- Python str conversion used by print: the raw string when the value is a
str, its repr rendering otherwise. -/
def pyStr : Json → String
  | .str s => s
  | v => pyRepr v

/-- The credentials read from nimbix.yaml: the username and apikey keys of the
config dict. -/
structure Config where
  username : String
  apikey : String
deriving DecidableEq

/-- An HTTP GET request issued by the script, with the query parameters the
source interpolates into the URL. -/
inductive Request where
  | jobs (username apikey : String)
  | connect (username apikey number : String)
deriving DecidableEq

/-- Constant api_url from line 8 of the source. -/
def api_url : String := "https://api.jarvice.com/jarvice"

/-- The URL the source builds with `%`-interpolation for each request. -/
def Request.url : Request → String
  | .jobs u k => api_url ++ "/jobs?username=" ++ u ++ "&apikey=" ++ k
  | .connect u k n =>
    api_url ++ "/connect?username=" ++ u ++ "&apikey=" ++ k ++ "&number=" ++ n

/-- Holds exactly for a connect request. -/
def Request.isConnect : Request → Bool
  | .connect _ _ _ => true
  | .jobs _ _ => false

/-- The server side of a run: for each of the two GET calls, the HTTP status
code of the response and the outcome of `json.loads` on its decoded body
(absent = the body is not valid JSON, so `json.loads` raises a
ValueError). -/
structure Env where
  jobsStatus : Nat
  jobsBody : Option Json
  connectStatus : Nat
  connectBody : Option Json

/-- Outcome of one process run: lines printed to stdout and stderr, the exit
code, the HTTP requests issued (in order), and the uncaught Python exception
that terminated the process, if any. -/
structure RunResult where
  stdout : List String
  stderr : List String
  exitCode : Nat
  requests : List Request
  uncaught : Option PyErr
deriving DecidableEq

/-- A run killed by an uncaught Python exception: traceback on stderr, exit
code 1, nothing on stdout. -/
def crashRes (e : PyErr) (reqs : List Request) : RunResult :=
  ⟨[], [pyErrMsg e], 1, reqs, some e⟩

/-- Outcome of the argument dispatch on lines 14-21. -/
inductive ArgParse where
  | ok (image : String)
  | usageError
  | helpExit
  | indexError
deriving DecidableEq

/-- The long-option spellings argparse accepts for `--image`: the full name
and its unambiguous prefix abbreviations. -/
def imageFlagNames : List String := ["--i", "--im", "--ima", "--imag", "--image"]

/-- Holds when the token is the image flag expecting a separate value. -/
def isImageFlagName (t : String) : Bool := imageFlagNames.contains t

/-- Strips the given prefix characters from the token characters, yielding
the remainder, or nothing when the token does not start with that prefix. -/
def dropPre : List Char → List Char → Option (List Char)
  | [], ts => some ts
  | _ :: _, [] => none
  | p :: ps, c :: ts => if c = p then dropPre ps ts else none

/-- The attached value when the token has the form flag=VALUE for one of the
accepted flag spellings, else nothing. -/
def imageFlagValue (t : String) : Option String :=
  imageFlagNames.findSome? fun p =>
    match dropPre (p.data ++ ['=']) t.data with
    | some rest => some (String.mk rest)
    | none => none

/-- Holds for any token argparse consumes as the image option. -/
def isImageFlagTok (t : String) : Bool :=
  isImageFlagName t || (imageFlagValue t).isSome

/-- Holds for the short help spellings: a dash followed by one or more h
characters (-h, -hh, ...), which argparse unpacks as a cluster of -h options,
each taking no argument, so the help action fires. -/
def shortHelpCluster (t : String) : Bool :=
  match t.data with
  | '-' :: rest => !rest.isEmpty && rest.all (fun c => c = 'h')
  | _ => false

/-- Holds for the tokens that fire the automatic help action: the long
spellings --help, --h, --he, --hel (the unambiguous prefix abbreviations — no
other option of this parser starts with --h) and the short clusters -h,
-hh, ... -/
def isHelpTok (t : String) : Bool :=
  ["--h", "--he", "--hel", "--help"].contains t || shortHelpCluster t

/-- Holds for tokens on which argparse errors out the moment it consumes them
(usage message, exit 2), before any later help flag can fire: a long help
spelling with an attached =argument (help takes none, so the explicit
argument is rejected), or a short cluster starting with -h containing a non-h
character (argparse peels off -h and then chokes on the leftover
characters). -/
def immediateErrTok (t : String) : Bool :=
  (["--h", "--he", "--hel", "--help"].any fun p => (dropPre (p.data ++ ['=']) t.data).isSome)
    || (match t.data with
        | '-' :: 'h' :: rest => !(rest.all (fun c => c = 'h'))
        | _ => false)

/-- Holds for tokens of the form --=... : the bare -- long-option prefix
abbreviates both --help and --image, so argparse rejects the token as an
ambiguous option. -/
def ambiguousTok (t : String) : Bool := (dropPre ['-', '-', '='] t.data).isSome

/-- Argparse classifies every token as option or positional up front, before
consuming any option (the help action included), and this scan raises the
ambiguous-option error; tokens after a -- separator are positional and
escape the scan. -/
def hasAmbiguousTok : List String → Bool
  | [] => false
  | t :: rest => if t = "--" then false else (ambiguousTok t || hasAmbiguousTok rest)

/-- Matches the fractional tail of the argparse negative-number pattern:
digits, then a dot, then at least one digit. -/
def digitsThenFrac : List Char → Bool
  | [] => false
  | c :: cs =>
    if c = '.' then !cs.isEmpty && cs.all (fun d => d.isDigit)
    else c.isDigit && digitsThenFrac cs

/-- Matches argparse's negative-number pattern (a dash followed by digits, or
by digits, a dot and at least one digit): such tokens count as values, not
options, because this parser has no numeric-looking option strings. -/
def negNumTok (t : String) : Bool :=
  match t.data with
  | '-' :: rest => (!rest.isEmpty && rest.all (fun d => d.isDigit)) || digitsThenFrac rest
  | _ => false

/-- Holds for tokens argparse refuses to consume as an option argument because
they look like options themselves: they begin with a dash and are neither the
lone dash nor a negative number. -/
def optionLike (t : String) : Bool :=
  match t.data with
  | '-' :: rest => !rest.isEmpty && !negNumTok t
  | _ => false

/-- Model of parser.parse_args() for the parser of lines 16-17 (argparse as of
CPython 3.11): a single optional `--image` (default `ng0`) plus the automatic
help action.  Scans the tokens in order; a help flag (in any accepted
spelling) prints help and exits 0; `--image V` and `--image=V` (abbreviations
included) set the image, last occurrence wins, except that a separate value V
that itself looks like an option is refused — argparse errors with
expected-one-argument, exit 2 — as is a trailing `--image` without a value;
malformed help tokens and the ambiguous --=... form error out immediately
(see immediateErrTok); the `--` token is unrecognized for this parser (it has no positionals, so the
separator and everything after it end up unrecognized, an error even when
nothing follows); any other token is unrecognized and makes `parse_args` exit
2 with a usage message once scanning ends.  `acc` is the value seen so far,
`unrec` records whether an unrecognized token was seen. -/
def argparseImage (acc : Option String) (unrec : Bool) : List String → ArgParse
  | [] => if unrec then .usageError else .ok (acc.getD "ng0")
  | t :: rest =>
    if isHelpTok t then .helpExit
    else if immediateErrTok t then .usageError
    else if t = "--" then .usageError
    else if isImageFlagName t then
      match rest with
      | [] => .usageError
      | v :: rest2 =>
        if optionLike v then .usageError
        else argparseImage (some v) unrec rest2
    else
      match imageFlagValue t with
      | some v => argparseImage (some v) unrec rest
      | none => argparseImage acc true rest

/-- The full parser.parse_args() call: the upfront classification scan (which
alone can raise the ambiguous-option error) followed by the consumption scan
of `argparseImage`. -/
def parseArgs (args : List String) : ArgParse :=
  if hasAmbiguousTok args then .usageError else argparseImage none false args

/-- The argv dispatch of lines 14-21: with `len(sys.argv) > 2` the script runs
argparse over `sys.argv[1:]`; otherwise it takes `sys.argv[1]` verbatim
(raising `IndexError` when the script got no argument at all).  `argv` is the
full `sys.argv`, program name included. -/
def parseImage (argv : List String) : ArgParse :=
  if argv.length > 2 then parseArgs (argv.drop 1)
  else
    match argv.get? 1 with
    | some a => .ok a
    | none => .indexError

/-- The argparse usage/error text written to stderr on exit 2. -/
def usageMsg : String := "usage: ssh.py [-h] [--image IMAGE] -- error: unrecognized arguments"

/-- The argparse help text written to stdout by `-h`. -/
def helpMsg : String := "usage: ssh.py [-h] [--image IMAGE]"

/-- The message printed (to stdout, via `print`) by the empty-image guard on
line 27. -/
def emptyImageMsg : String := "please provide image name"

/-- The whole module run, lines 14-54, given the argv, the credentials from
`nimbix.yaml`, and the two response bodies: argument dispatch, empty-image
guard, GET `/jobs`, `json.loads`, `.items()` scan via `findJob`, the
`assert target_jobnumber is not None`, GET `/connect`, `json.loads`,
`res['address']`, and the final `print`. -/
def runCore (argv : List String) (cfg : Config)
    (jobsBody connectBody : Option Json) : RunResult :=
  match parseImage argv with
  | .usageError => ⟨[], [usageMsg], 2, [], none⟩
  | .helpExit => ⟨[helpMsg], [], 0, [], none⟩
  | .indexError => crashRes .indexError []
  | .ok image =>
    if image = "" then ⟨[emptyImageMsg], [], 1, [], none⟩
    else
      let reqs1 := [Request.jobs cfg.username cfg.apikey]
      match jobsBody with
      | none => crashRes .valueError reqs1
      | some j =>
        match j.items with
        | none => crashRes .attributeError reqs1
        | some entries =>
          match findJob image entries with
          | .error e => crashRes e reqs1
          | .ok none => crashRes .assertionError reqs1
          | .ok (some jobnumber) =>
            let reqs2 := reqs1 ++ [Request.connect cfg.username cfg.apikey jobnumber]
            match connectBody with
            | none => crashRes .valueError reqs2
            | some c =>
              match getItem c "address" with
              | .error e => crashRes e reqs2
              | .ok v => ⟨[pyStr v], [], 0, reqs2, none⟩

/-- A run of the script against an environment: the HTTP status codes in `env`
are available to the script but (as the source shows, lines 31 and 48 are
commented out) never read. -/
def run (argv : List String) (cfg : Config) (env : Env) : RunResult :=
  runCore argv cfg env.jobsBody env.connectBody

/-- A sample job-info entry whose job_api_submission.nae.name is ng0. -/
def sampleInfo : Json :=
  .obj [("job_api_submission", .obj [("nae", .obj [("name", .str "ng0")])])]

/-- The one-job listing of the end-to-end scenario from the spec. -/
def sampleListing : Json := .obj [("42", sampleInfo)]

/-! Helper lemmas about the search loop. -/

theorem findJob_append_of_none (image : String) (l rest : List (String × Json))
    (h : ∀ p ∈ l, entryOk p = true ∧ entryMatches image p = false) :
    findJob image (l ++ rest) = findJob image rest := by
  induction l with
  | nil => rfl
  | cons a l ih =>
    obtain ⟨ajn, ainfo⟩ := a
    obtain ⟨hok, hmm⟩ := h _ (List.mem_cons_self _ _)
    cases hg : getName ainfo with
    | error e => simp [entryOk, hg] at hok
    | ok v =>
      simp only [entryMatches, hg] at hmm
      simp only [List.cons_append, findJob, hg, hmm, if_false]
      exact ih fun p hp => h p (List.mem_cons_of_mem _ hp)

theorem findJob_cons_match (image : String) (jn : String) (info : Json)
    (rest : List (String × Json)) (hm : entryMatches image (jn, info) = true) :
    findJob image ((jn, info) :: rest) = .ok (some jn) := by
  cases hg : getName info with
  | error e => simp [entryMatches, hg] at hm
  | ok v =>
    simp only [entryMatches, hg] at hm
    simp [findJob, hg, hm]

theorem findJob_none_of_no_match (image : String) (l : List (String × Json))
    (h : ∀ p ∈ l, entryOk p = true ∧ entryMatches image p = false) :
    findJob image l = .ok none := by
  have h2 := findJob_append_of_none image l [] h
  simpa using h2

theorem lookup_address_eq_none (fields : List (String × Json))
    (h : fields.any (fun p => p.1 == "address") = false) :
    fields.lookup "address" = none := by
  induction fields with
  | nil => rfl
  | cons a rest ih =>
    obtain ⟨k, v⟩ := a
    simp only [List.any_cons, Bool.or_eq_false_iff] at h
    obtain ⟨h1, h2⟩ := h
    have hk : ("address" == k) = false := by
      simp only [beq_eq_false_iff_ne] at h1 ⊢
      exact fun hh => h1 hh.symm
    simp [List.lookup, hk, ih h2]

theorem getItem_address_error (c : Json) (h : hasAddress c = false) :
    getItem c "address" = .error (.keyError "address") ∨
      getItem c "address" = .error .typeError := by
  cases c with
  | obj fields =>
    left
    simp only [hasAddress] at h
    simp [getItem, lookup_address_eq_none fields h]
  | null => right; rfl
  | bool b => right; rfl
  | num n => right; rfl
  | str s => right; rfl
  | arr elems => right; rfl

/-! The claims. -/

/-- C1: for the job listing mapping 42 to an entry whose
job_api_submission.nae.name is ng0, and the connect response carrying address
10.0.0.5, running the program with image name ng0 prints exactly 10.0.0.5 on
stdout (and nothing else), exits 0, and issues exactly the jobs request
followed by the connect request for job 42. -/
theorem c1_end_to_end_resolution :
    run ["ssh.py", "ng0"] ⟨"user0", "key0"⟩
      ⟨200, some sampleListing, 200, some (.obj [("address", .str "10.0.0.5")])⟩ =
      ⟨["10.0.0.5"], [], 0,
        [.jobs "user0" "key0", .connect "user0" "key0" "42"], none⟩ := by
  rfl

/-- C2: for every job listing whose entries are all inspectable (the nested
name lookup raises no exception) and in which exactly one entry matches the
image name — stated as: filtering the entries by the match predicate leaves
exactly that entry — the search loop returns that entry's job number. -/
theorem c2_findJob_unique_match (image : String) (entries : List (String × Json))
    (jn : String) (info : Json)
    (hok : ∀ p ∈ entries, entryOk p = true)
    (huniq : entries.filter (fun p => entryMatches image p) = [(jn, info)]) :
    findJob image entries = .ok (some jn) := by
  induction entries with
  | nil => simp at huniq
  | cons a rest ih =>
    obtain ⟨ajn, ainfo⟩ := a
    have hoka := hok _ (List.mem_cons_self _ _)
    cases hm : entryMatches image (ajn, ainfo) with
    | false =>
      rw [List.filter_cons_of_neg (by simp [hm])] at huniq
      cases hg : getName ainfo with
      | error e => simp [entryOk, hg] at hoka
      | ok v =>
        simp only [entryMatches, hg] at hm
        simp only [findJob, hg, hm, if_false]
        exact ih (fun p hp => hok p (List.mem_cons_of_mem _ hp)) huniq
    | true =>
      rw [List.filter_cons_of_pos (by simp [hm])] at huniq
      obtain ⟨heq, -⟩ := List.cons_eq_cons.mp huniq
      obtain ⟨h1, h2⟩ := Prod.mk.injEq .. ▸ heq
      cases hg : getName ainfo with
      | error e => simp [entryMatches, hg] at hm
      | ok v =>
        simp only [entryMatches, hg] at hm
        simp [findJob, hg, hm, h1]

/-- Closed witness for C2: on the sample listing with the single matching
entry 42, the search returns 42. -/
theorem c2_witness :
    findJob "ng0" [("42", sampleInfo)] = .ok (some "42") :=
  c2_findJob_unique_match "ng0" [("42", sampleInfo)] "42" sampleInfo
    (by decide) (by rfl)

/-- C3: for every job listing all of whose entries are inspectable and none of
which matches the given (non-empty) image name, the run dies on the
`assert target_jobnumber is not None` line — an uncaught AssertionError,
exit code 1 — after issuing only the jobs request; in particular no connect
request is made. -/
theorem c3_no_match_asserts (image : String) (cfg : Config)
    (s1 s2 : Nat) (cb : Option Json) (entries : List (String × Json))
    (himg : image ≠ "")
    (h : ∀ p ∈ entries, entryOk p = true ∧ entryMatches image p = false) :
    run ["ssh.py", image] cfg ⟨s1, some (.obj entries), s2, cb⟩ =
        crashRes .assertionError [Request.jobs cfg.username cfg.apikey] ∧
      ∀ r ∈ (run ["ssh.py", image] cfg ⟨s1, some (.obj entries), s2, cb⟩).requests,
        r.isConnect = false := by
  have hfind := findJob_none_of_no_match image entries h
  have hrun : run ["ssh.py", image] cfg ⟨s1, some (.obj entries), s2, cb⟩ =
      crashRes .assertionError [Request.jobs cfg.username cfg.apikey] := by
    have hp : parseImage ["ssh.py", image] = .ok image := rfl
    simp [run, runCore, hp, himg, Json.items, hfind]
  refine ⟨hrun, ?_⟩
  intro r hr
  rw [hrun] at hr
  simp only [crashRes, List.mem_singleton] at hr
  subst hr
  rfl

/-- Closed witness for C3: with image zzz and the sample listing (whose only
entry is named ng0), the run crashes on the assertion having made only the
jobs request. -/
theorem c3_witness :
    run ["ssh.py", "zzz"] ⟨"user0", "key0"⟩
        ⟨200, some (.obj [("42", sampleInfo)]), 200, none⟩ =
        crashRes .assertionError [Request.jobs "user0" "key0"] ∧
      ∀ r ∈ (run ["ssh.py", "zzz"] ⟨"user0", "key0"⟩
        ⟨200, some (.obj [("42", sampleInfo)]), 200, none⟩).requests,
        r.isConnect = false :=
  c3_no_match_asserts "zzz" ⟨"user0", "key0"⟩ 200 200 none [("42", sampleInfo)]
    (by decide) (by decide)

/-- C4 counterexample: the connect response is the valid JSON object with the
single key job (so the address field is absent), yet the run does not fail
with a typed MissingFieldError — line 52 raises an uncaught KeyError (a crash:
traceback on stderr, exit 1), refuting the claim that this case never crashes
with an unhandled exception. -/
theorem c4_counterexample :
    run ["ssh.py", "ng0"] ⟨"user0", "key0"⟩
      ⟨200, some sampleListing, 200, some (.obj [("job", .str "42")])⟩ =
      crashRes (.keyError "address") [.jobs "user0" "key0", .connect "user0" "key0" "42"] := by
  rfl

/-- C4 amended: for every connect response that is valid JSON but lacks the
address field, reached with any non-empty image name that the job listing
resolves to some job number, the run terminates with an uncaught KeyError (if
the response is an object) or TypeError (otherwise) — an unhandled-exception
crash with exit code 1 — and prints nothing to stdout, in particular never an
empty string. -/
theorem c4_missing_address_crashes (image : String) (cfg : Config) (s1 s2 : Nat)
    (jbody : Json) (entries : List (String × Json)) (jn : String) (c : Json)
    (himg : image ≠ "")
    (hitems : jbody.items = some entries)
    (hfind : findJob image entries = .ok (some jn))
    (hna : hasAddress c = false) :
    ∃ e, (e = PyErr.keyError "address" ∨ e = PyErr.typeError) ∧
      run ["ssh.py", image] cfg ⟨s1, some jbody, s2, some c⟩ =
        crashRes e [Request.jobs cfg.username cfg.apikey,
          Request.connect cfg.username cfg.apikey jn] := by
  have hp : parseImage ["ssh.py", image] = .ok image := rfl
  rcases getItem_address_error c hna with hga | hga
  · exact ⟨.keyError "address", Or.inl rfl, by
      simp [run, runCore, hp, himg, hitems, hfind, hga]⟩
  · exact ⟨.typeError, Or.inr rfl, by
      simp [run, runCore, hp, himg, hitems, hfind, hga]⟩

/-- Closed witness for the amended C4: with the sample listing and the connect
response lacking an address, the run crashes with an uncaught KeyError. -/
theorem c4_witness :
    ∃ e, (e = PyErr.keyError "address" ∨ e = PyErr.typeError) ∧
      run ["ssh.py", "ng0"] ⟨"user0", "key0"⟩
        ⟨200, some sampleListing, 200, some (.obj [("job", .str "42")])⟩ =
        crashRes e [Request.jobs "user0" "key0",
          Request.connect "user0" "key0" "42"] :=
  c4_missing_address_crashes "ng0" ⟨"user0", "key0"⟩ 200 200
    sampleListing [("42", sampleInfo)] "42" (.obj [("job", .str "42")])
    (by decide) (by rfl) (by rfl) (by rfl)

/-- C5: for every invocation whose argument dispatch yields the empty string
as the image name, the run stops at the guard of lines 26-28: it prints the
please-provide message, exits 1, and issues no HTTP request at all (the
requests trace is empty, so neither a jobs nor a connect call is observable). -/
theorem c5_empty_image_no_network (argv : List String) (cfg : Config) (env : Env)
    (h : parseImage argv = .ok "") :
    run argv cfg env = ⟨[emptyImageMsg], [], 1, [], none⟩ := by
  simp [run, runCore, h]

/-- Closed witness for C5: invoking with the single argument being the empty
string makes no request and exits 1 with the guard message. -/
theorem c5_witness :
    run ["ssh.py", ""] ⟨"user0", "key0"⟩ ⟨200, none, 200, none⟩ =
      ⟨[emptyImageMsg], [], 1, [], none⟩ :=
  c5_empty_image_no_network ["ssh.py", ""] ⟨"user0", "key0"⟩
    ⟨200, none, 200, none⟩ rfl

/-- C6: the script never reads the HTTP status codes (lines 31 and 48 are
commented out): two environments that agree on the two response bodies but
carry arbitrary, possibly different status codes produce identical runs — so
for any response body that is valid JSON, the body is parsed and used as the
job listing regardless of the status code, a non-200 JSON error body
included. -/
theorem c6_status_code_ignored (argv : List String) (cfg : Config)
    (jb cb : Option Json) (s1 s2 t1 t2 : Nat) :
    run argv cfg ⟨s1, jb, s2, cb⟩ = run argv cfg ⟨t1, jb, t2, cb⟩ := by
  rfl

/-- C7: when the listing is a clean prefix (inspectable, non-matching)
followed by a matching entry and then an arbitrary tail containing at least
one further matching entry, the search returns the first matching entry's job
number.  The tail `l2` is universally quantified and wholly unconstrained
beyond containing a duplicate match — the result does not depend on it, which
is exactly first-match-wins: no entry after the first match is inspected. -/
theorem c7_first_match_wins (image : String) (l1 : List (String × Json))
    (jn : String) (info : Json) (l2 : List (String × Json))
    (h1 : ∀ p ∈ l1, entryOk p = true ∧ entryMatches image p = false)
    (hm : entryMatches image (jn, info) = true)
    (hdup : ∃ q ∈ l2, entryMatches image q = true) :
    findJob image (l1 ++ (jn, info) :: l2) = .ok (some jn) := by
  rw [findJob_append_of_none image l1 _ h1]
  exact findJob_cons_match image jn info l2 hm

/-- A sample job-info entry named other-image, matching nothing the witnesses
search for. -/
def otherInfo : Json :=
  .obj [("job_api_submission", .obj [("nae", .obj [("name", .str "other")])])]

/-- Closed witness for C7: a listing with a non-matching entry 41, a matching
entry 42 and a duplicate matching entry 43 resolves to 42. -/
theorem c7_witness :
    findJob "ng0" ([("41", otherInfo)] ++ ("42", sampleInfo) :: [("43", sampleInfo)]) =
      .ok (some "42") :=
  c7_first_match_wins "ng0" [("41", otherInfo)] "42" sampleInfo [("43", sampleInfo)]
    (by decide) (by rfl) ⟨("43", sampleInfo), List.mem_singleton.mpr rfl, by rfl⟩

/-- C8: the resolution is deterministic in the two response bodies — two
environments agreeing on the jobs body and the connect body (credentials,
argv, and hence image name being fixed) yield identical runs, in particular
the same output address. -/
theorem c8_deterministic (argv : List String) (cfg : Config) (env1 env2 : Env)
    (hj : env1.jobsBody = env2.jobsBody) (hc : env1.connectBody = env2.connectBody) :
    run argv cfg env1 = run argv cfg env2 := by
  unfold run
  rw [hj, hc]

/-- Closed witness for C8: two runs against servers answering with the same
bodies (but different status codes) produce the same result. -/
theorem c8_witness :
    run ["ssh.py", "ng0"] ⟨"user0", "key0"⟩
        ⟨200, some sampleListing, 200, some (.obj [("address", .str "10.0.0.5")])⟩ =
      run ["ssh.py", "ng0"] ⟨"user0", "key0"⟩
        ⟨503, some sampleListing, 404, some (.obj [("address", .str "10.0.0.5")])⟩ :=
  c8_deterministic ["ssh.py", "ng0"] ⟨"user0", "key0"⟩
    ⟨200, some sampleListing, 200, some (.obj [("address", .str "10.0.0.5")])⟩
    ⟨503, some sampleListing, 404, some (.obj [("address", .str "10.0.0.5")])⟩
    rfl rfl

/-- C9 counterexample: the empty-image failure is a failing run (exit code 1)
whose human-readable message is written to standard output by the `print` call
of line 27 — stdout carries the message and stderr is empty, refuting the
claim that every failing run writes its message to standard error and not to
standard output. -/
theorem c9_counterexample :
    run ["ssh.py", ""] ⟨"user1", "key1"⟩ ⟨200, some sampleListing, 200, none⟩ =
      ⟨[emptyImageMsg], [], 1, [], none⟩ := by
  rfl

/-- C9 amended: every run either succeeds with exit code 0, or fails with a
non-zero exit code carrying a message — on standard error for argparse errors
and uncaught-exception tracebacks, but on standard output (the please-provide
line) for the empty-image failure. -/
theorem c9_failing_runs_nonzero (argv : List String) (cfg : Config) (env : Env) :
    (run argv cfg env).exitCode = 0 ∨
      ((run argv cfg env).exitCode ≠ 0 ∧
        ((run argv cfg env).stderr ≠ [] ∨
          (run argv cfg env).stdout = [emptyImageMsg])) := by
  obtain ⟨s1, jb, s2, cb⟩ := env
  unfold run runCore
  repeat' split
  all_goals simp [crashRes]

/-- Every token of the remaining argv being neither an image flag nor a help
flag, argparse has at least one unrecognized argument recorded and exits with
a usage error. -/
theorem argparseImage_usageError_of_unrec (rest : List String) (acc : Option String)
    (h : ∀ t ∈ rest, isImageFlagTok t = false ∧ isHelpTok t = false) :
    argparseImage acc true rest = .usageError := by
  induction rest generalizing acc with
  | nil => rfl
  | cons t rest2 ih =>
    obtain ⟨hf, hh⟩ := h t (List.mem_cons_self _ _)
    simp only [isImageFlagTok, Bool.or_eq_false_iff] at hf
    have hv : imageFlagValue t = none := by
      cases hvv : imageFlagValue t with
      | none => rfl
      | some v => rw [hvv] at hf; simp at hf
    rw [argparseImage.eq_def]
    by_cases hie : immediateErrTok t = true
    · simp [hh, hie]
    · by_cases hdd : t = "--"
      · subst hdd
        simp [hh, hie]
      · simp only [Bool.not_eq_true] at hie
        simp [hh, hie, hdd, hf.1, hv]
        exact ih _ fun u hu => h u (List.mem_cons_of_mem _ hu)

/-- C10 amended: the image flag is parsed only when the process receives two
or more command-line arguments (len of sys.argv greater than 2); in that
branch, when no argument is an image flag (or help flag), argparse exits with
a usage error rather than silently defaulting the image to ng0 — the declared
default is unreachable there; when invoked with exactly one argument, that
argument is used verbatim as the image name, even if it begins with a double
dash. -/
theorem c10_argv_dispatch_amended :
    (∀ prog a : String, parseImage [prog, a] = .ok a) ∧
      ∀ (prog : String) (rest : List String), 2 ≤ rest.length →
        (∀ t ∈ rest, isImageFlagTok t = false ∧ isHelpTok t = false) →
        parseImage (prog :: rest) = .usageError := by
  constructor
  · intro prog a
    rfl
  · intro prog rest hlen h
    have hgt : (prog :: rest).length > 2 := by
      simp only [List.length_cons]
      omega
    rw [parseImage, if_pos hgt]
    show parseArgs rest = .usageError
    rw [parseArgs]
    by_cases hamb : hasAmbiguousTok rest = true
    · rw [if_pos hamb]
    rw [if_neg hamb]
    cases rest with
    | nil => simp at hlen
    | cons t rest2 =>
      obtain ⟨hf, hh⟩ := h t (List.mem_cons_self _ _)
      simp only [isImageFlagTok, Bool.or_eq_false_iff] at hf
      have hv : imageFlagValue t = none := by
        cases hvv : imageFlagValue t with
        | none => rfl
        | some v => rw [hvv] at hf; simp at hf
      rw [argparseImage.eq_def]
      by_cases hie : immediateErrTok t = true
      · simp [hh, hie]
      · by_cases hdd : t = "--"
        · subst hdd
          simp [hh, hie]
        · simp only [Bool.not_eq_true] at hie
          simp [hh, hie, hdd, hf.1, hv]
          exact argparseImage_usageError_of_unrec rest2 none
            fun u hu => h u (List.mem_cons_of_mem _ hu)

/-- Closed witness for the amended C10: a lone argument is taken verbatim even
when it spells the image flag, and two flag-free arguments make argparse exit
with a usage error instead of defaulting to ng0. -/
theorem c10_witness :
    parseImage ["ssh.py", "--image"] = .ok "--image" ∧
      parseImage ["ssh.py", "alpha", "beta"] = .usageError :=
  ⟨c10_argv_dispatch_amended.1 "ssh.py" "--image",
    c10_argv_dispatch_amended.2 "ssh.py" ["alpha", "beta"] (by decide) (by decide)⟩

/-- C10 counterexample: invoked with the two flag-free arguments job1 and
job2, the process does not silently default the image name to ng0 — argparse
rejects the unrecognized arguments, the run exits 2 with a usage message on
stderr, and no request is ever made. -/
theorem c10_counterexample :
    parseImage ["ssh.py", "job1", "job2"] ≠ ArgParse.ok "ng0" ∧
      run ["ssh.py", "job1", "job2"] ⟨"user0", "key0"⟩
          ⟨200, some sampleListing, 200, none⟩ =
        ⟨[], [usageMsg], 2, [], none⟩ :=
  ⟨by decide, rfl⟩

end Nimbix
